import Mathlib

/-!
# Verification of the `intersect2d` line-segment intersection library

A shallow embedding of `src/lib.rs` (the public façade, the two-segment
intersection primitive and the brute-force drivers) together with theorems
settling the specification's claims about them.

Modelling conventions for the generic scalar type `T : Float + UlpsEq`:

* A scalar is modelled by `Flt`: an exact rational value together with a
  finiteness flag.  The non-finite floating-point values (NaN and the two
  infinities) are collapsed into `finite = false`; the only behaviour of a
  non-finite value the theorems below exercise is `is_finite` itself, which
  the façade's input validation queries.
* ULP-based approximate equality (`approx::ulps_eq!`) is modelled as exact
  equality of the rational values of two finite scalars.  Exact rational
  arithmetic is the tolerance-zero instance of the ULP semantics; every
  branch condition of the source is kept verbatim in terms of this equality.
* Comparisons (`<`, `>`) on scalars are false when either side is
  non-finite, matching IEEE comparisons on NaN.  No theorem below compares
  non-finite values.
* `T::sqrt` has no exact rational counterpart, so every definition that
  reaches the segment–point distance test takes the square-root function as
  an explicit parameter `sqrtf`; theorems quantify over it.
* The sweep-line engine lives in the `algorithm` module, which the crate
  declares (`pub mod algorithm`) but whose source is not part of the staged
  files.  Each façade entry point therefore takes the engine as an explicit
  parameter of type `SweepFn`, applied exactly where the source builds
  `AlgorithmData` — with the same configuration flags the source sets.  All
  theorems below either restrict to the brute-force branch (segment count
  below the threshold), where the engine is never invoked, or quantify over
  the engine parameter.
* The external `geo` crate's `Intersects` predicate for two line segments
  (used by the boolean entry points' brute-force branches) is exact on
  floats via robust orientation predicates; it is modelled by
  `geo_intersects`, the exact "the two closed segments share a point" test.
-/

namespace Intersect2d

/-- Model of the scalar type `T`: an exact rational value plus a finiteness
flag (`false` stands for NaN or an infinity). -/
@[ext]
structure Flt where
  val : ℚ
  finite : Bool
deriving DecidableEq, Repr

/-- A finite scalar. -/
def fq (q : ℚ) : Flt := ⟨q, true⟩

/-- `T::zero()`. -/
def flt_zero : Flt := ⟨0, true⟩

instance : Add Flt := ⟨fun a b => ⟨a.val + b.val, a.finite && b.finite⟩⟩
instance : Sub Flt := ⟨fun a b => ⟨a.val - b.val, a.finite && b.finite⟩⟩
instance : Mul Flt := ⟨fun a b => ⟨a.val * b.val, a.finite && b.finite⟩⟩
instance : Div Flt := ⟨fun a b => ⟨a.val / b.val, a.finite && b.finite⟩⟩

/-- Strict `<` on scalars: false when either side is non-finite (NaN
semantics; no theorem compares non-finite values). -/
def flt_lt (a b : Flt) : Bool := a.finite && b.finite && decide (a.val < b.val)

/-- Strict `>` on scalars. -/
def flt_gt (a b : Flt) : Bool := flt_lt b a

/-- `approx::ulps_eq!` on scalars, at the exact-rational instance of the ULP
semantics: both values finite and equal. -/
def ulps_eq (a b : Flt) : Bool := a.finite && b.finite && decide (a.val = b.val)

/-- `geo::Coordinate<T>`. -/
@[ext]
structure Coordinate where
  x : Flt
  y : Flt
deriving DecidableEq, Repr

instance : Sub Coordinate := ⟨fun a b => ⟨a.x - b.x, a.y - b.y⟩⟩

/-- `geo::Line<T>`.  The Rust field `end` is a Lean keyword; it is called
`stop` here. -/
@[ext]
structure Line where
  start : Coordinate
  stop : Coordinate
deriving DecidableEq, Repr

/-- `ulps_eq_c`: the two coordinates are virtually identical. -/
def ulps_eq_c (a b : Coordinate) : Bool := ulps_eq a.x b.x && ulps_eq a.y b.y

/-- `cross_z`: the z component of the 2-dimensional cross product. -/
def cross_z (a b : Coordinate) : Flt := a.x * b.y - a.y * b.x

/-- `dot`: the dot product. -/
def dot (a b : Coordinate) : Flt := a.x * b.x + a.y * b.y

/-- `div`: divides a vector by a scalar. -/
def div (a : Coordinate) (b : Flt) : Coordinate := ⟨a.x / b, a.y / b⟩

/-- `scale_to_coordinate`: `point + scale * vector`. -/
def scale_to_coordinate (point vector : Coordinate) (scale : Flt) : Coordinate :=
  ⟨point.x + scale * vector.x, point.y + scale * vector.y⟩

/-- The result of intersecting two segments: a normal one-point
intersection, or a collinear overlap. -/
inductive Intersection where
  | Intersection (c : Coordinate)
  | OverLap (l : Line)
deriving DecidableEq, Repr

/-- `Intersection::single`: a single, simple intersection point (an overlap
collapses to its start). -/
def Intersection.single : Intersect2d.Intersection → Coordinate
  | .OverLap a => a.start
  | .Intersection a => a

/-- `intersect_line_point`: any intersection point between line segment and
point.  `sqrtf` models `T::sqrt`. -/
def intersect_line_point (sqrtf : Flt → Flt) (line : Line) (point : Coordinate) :
    Option Intersection :=
  -- take care of end point equality
  if ulps_eq line.start.x point.x && ulps_eq line.start.y point.y then
    some (.Intersection point)
  else if ulps_eq line.stop.x point.x && ulps_eq line.stop.y point.y then
    some (.Intersection point)
  else
    let x1 := line.start.x
    let x2 := line.stop.x
    let y1 := line.start.y
    let y2 := line.stop.y
    let x := point.x
    let y := point.y
    let ab := sqrtf ((x2 - x1) * (x2 - x1) + (y2 - y1) * (y2 - y1))
    let ap := sqrtf ((x - x1) * (x - x1) + (y - y1) * (y - y1))
    let pb := sqrtf ((x2 - x) * (x2 - x) + (y2 - y) * (y2 - y))
    if ulps_eq ab (ap + pb) then some (.Intersection point) else none

/-- The four AABB early-return tests at the head of `intersect`, as one
predicate: the segments' bounding boxes are strictly disjoint in x or y. -/
def aabb_reject (one other : Line) : Bool :=
  (flt_gt one.stop.x other.stop.x && flt_gt one.stop.x other.start.x
    && flt_gt one.start.x other.stop.x && flt_gt one.start.x other.start.x)
  || (flt_lt one.stop.x other.stop.x && flt_lt one.stop.x other.start.x
    && flt_lt one.start.x other.stop.x && flt_lt one.start.x other.start.x)
  || (flt_gt one.stop.y other.stop.y && flt_gt one.stop.y other.start.y
    && flt_gt one.start.y other.stop.y && flt_gt one.start.y other.start.y)
  || (flt_lt one.stop.y other.stop.y && flt_lt one.stop.y other.start.y
    && flt_lt one.start.y other.stop.y && flt_lt one.start.y other.start.y)

/-- `intersect`: any intersection point between two line segments.  In the
non-parallel branch the source also computes
`u = cross(q − p, r / (r × s))` and never uses it: the returned candidate
point is not checked to lie within either segment's parametric range. -/
def intersect (sqrtf : Flt → Flt) (one other : Line) : Option Intersection :=
  if aabb_reject one other then none
  else
    let p := one.start
    let q := other.start
    let r := one.stop - p
    let s := other.stop - q
    let r_cross_s := cross_z r s
    let q_minus_p := q - p
    let q_minus_p_cross_r := cross_z q_minus_p r
    -- If r × s = 0 then the two lines are parallel
    if ulps_eq r_cross_s flt_zero then
      -- one (or both) of the lines may be a point
      let one_is_a_point := ulps_eq_c one.start one.stop
      let other_is_a_point := ulps_eq_c other.start other.stop
      if one_is_a_point || other_is_a_point then
        if one_is_a_point && other_is_a_point && ulps_eq_c one.start other.start then
          some (.Intersection one.start)
        else if one_is_a_point then intersect_line_point sqrtf other one.start
        else intersect_line_point sqrtf one other.start
      else if ulps_eq q_minus_p_cross_r flt_zero then
        -- If r × s = 0 and (q − p) × r = 0, then the two lines are collinear.
        let r_dot_r := dot r r
        let r_div_r_dot_r := div r r_dot_r
        let s_dot_r := dot s r
        let t0 := dot q_minus_p r_div_r_dot_r
        let t1 := t0 + s_dot_r / r_dot_r
        some (.OverLap ⟨scale_to_coordinate p r t0, scale_to_coordinate p r t1⟩)
      else
        -- parallel and non-intersecting
        none
    else
      -- the lines are not parallel
      let t := cross_z q_minus_p (div s r_cross_s)
      some (.Intersection (scale_to_coordinate p r t))

/-! ## Model of the external `geo` crate's segment predicate

The boolean entry points' brute-force branches call
`geo::algorithm::intersects::Intersects` on two `geo::Line`s.  With a
`GeoFloat` scalar `geo` evaluates the exact predicate "the two closed
segments share at least one point" through robust orientation predicates;
`geo_intersects` is that predicate over the exact rational values. -/

/-- Twice the signed area of the triangle `p q r` (the orientation
predicate). -/
def orient2d (p q r : Coordinate) : ℚ :=
  (q.x.val - p.x.val) * (r.y.val - p.y.val) - (q.y.val - p.y.val) * (r.x.val - p.x.val)

/-- The point `c` lies on the closed segment `l` (exact test). -/
def geo_point_on (l : Line) (c : Coordinate) : Bool :=
  decide (orient2d l.start l.stop c = 0)
    && decide (min l.start.x.val l.stop.x.val ≤ c.x.val)
    && decide (c.x.val ≤ max l.start.x.val l.stop.x.val)
    && decide (min l.start.y.val l.stop.y.val ≤ c.y.val)
    && decide (c.y.val ≤ max l.start.y.val l.stop.y.val)

/-- Model of `geo`'s `Intersects` for two line segments: the closed segments
share at least one point. -/
def geo_intersects (one other : Line) : Bool :=
  if one.start = one.stop then geo_point_on other one.start
  else if other.start = other.stop then geo_point_on one other.start
  else
    let o1 := orient2d one.start one.stop other.start
    let o2 := orient2d one.start one.stop other.stop
    let o3 := orient2d other.start other.stop one.start
    let o4 := orient2d other.start other.stop one.stop
    (decide (o1 * o2 < 0) && decide (o3 * o4 < 0))
      || (decide (o1 = 0) && geo_point_on one other.start)
      || (decide (o2 = 0) && geo_point_on one other.stop)
      || (decide (o3 = 0) && geo_point_on other one.start)
      || (decide (o4 = 0) && geo_point_on other one.stop)

/-! ## The public façade -/

/-- `IntersectError`.  Each Rust variant carries a diagnostic `String`,
dropped here. -/
inductive IntersectError where
  | InternalError
  | InvalidData
  | InvalidSearchParameter
  | ResultsAlreadyTaken
deriving DecidableEq, Repr

instance {ε α : Type} [DecidableEq ε] [DecidableEq α] : DecidableEq (Except ε α) :=
  fun a b =>
    match a, b with
    | .error e1, .error e2 =>
      match decEq e1 e2 with
      | .isTrue h => .isTrue (by rw [h])
      | .isFalse h => .isFalse (fun hc => by cases hc; exact h rfl)
    | .ok v1, .ok v2 =>
      match decEq v1 v2 with
      | .isTrue h => .isTrue (by rw [h])
      | .isFalse h => .isFalse (fun hc => by cases hc; exact h rfl)
    | .error _, .ok _ => .isFalse (fun hc => by cases hc)
    | .ok _, .error _ => .isFalse (fun hc => by cases hc)

/-- An intersection record: the point and the involved segment indices. -/
abbrev IntersectionRecord : Type := Coordinate × List ℕ

/-- The sweep-line engine (`algorithm::AlgorithmData`), whose source is not
among the staged files: an abstract parameter taking the two configuration
flags the façade sets — `ignore_end_point_intersections` and
`stop_at_first_intersection` — and the segments, and producing what
`compute` yields.  Façade theorems either stay below the size threshold
(where the engine is never invoked) or hold for every engine. -/
abbrev SweepFn : Type :=
  Bool → Bool → List Line → Except IntersectError (List IntersectionRecord)

/-- The finiteness sanity check applied to one line. -/
def line_is_finite (l : Line) : Bool :=
  l.start.x.finite && l.start.y.finite && l.stop.x.finite && l.stop.y.finite

/-- The finiteness sanity check applied to one `LineString` vertex. -/
def coordinate_is_finite (c : Coordinate) : Bool := c.x.finite && c.y.finite

/-- The brute-force exclusive-policy skip test: some endpoint of the first
segment is virtually identical to some endpoint of the second. -/
def endpoints_share (l1 l2 : Line) : Bool :=
  ulps_eq_c l1.start l2.start || ulps_eq_c l1.start l2.stop
    || ulps_eq_c l1.stop l2.start || ulps_eq_c l1.stop l2.stop

/-- `iter().enumerate()` starting at index `k`. -/
def indexFrom (k : ℕ) : List Line → List (ℕ × Line)
  | [] => []
  | l :: tl => (k, l) :: indexFrom (k + 1) tl

/-- The inner record-collecting loop, over the enumerated lines after the
outer one.  `probe` is what the loop body asks of a pair: for the inclusive
driver it is `intersect` itself; for the exclusive driver it is `intersect`
guarded by the `endpoints_share` skip (`continue`). -/
def inner_scan (probe : Line → Line → Option Intersection) (i : ℕ) (l1 : Line) :
    List (ℕ × Line) → List IntersectionRecord
  | [] => []
  | (j, l2) :: tl =>
    (match probe l1 l2 with
     | some r => [(r.single, [i, j])]
     | none => []) ++ inner_scan probe i l1 tl

/-- The outer record-collecting loop.  On `lines.enumerate` the elements
after `(i, l1)` are exactly `lines.enumerate.skip(i + 1)`, which is what the
source's inner loop iterates. -/
def outer_scan (probe : Line → Line → Option Intersection) :
    List (ℕ × Line) → List IntersectionRecord
  | [] => []
  | (i, l1) :: tl => inner_scan probe i l1 tl ++ outer_scan probe tl

/-- The loop body of the inclusive record driver. -/
def inclusive_probe (sqrtf : Flt → Flt) (l1 l2 : Line) : Option Intersection :=
  intersect sqrtf l1 l2

/-- The loop body of the exclusive record driver: `continue` on shared
endpoints, otherwise `intersect`. -/
def exclusive_probe (sqrtf : Flt → Flt) (l1 l2 : Line) : Option Intersection :=
  if endpoints_share l1 l2 then none else intersect sqrtf l1 l2

/-- The inner boolean loop (`return true` as soon as `pred` holds). -/
def inner_any (pred : Line → Line → Bool) (l1 : Line) : List Line → Bool
  | [] => false
  | l2 :: tl => pred l1 l2 || inner_any pred l1 tl

/-- The outer boolean loop; the lines after `l1` are `iter().skip(i + 1)`. -/
def outer_any (pred : Line → Line → Bool) : List Line → Bool
  | [] => false
  | l1 :: tl => inner_any pred l1 tl || outer_any pred tl

/-- The loop body of the inclusive boolean driver: `geo`'s `intersects`. -/
def inclusive_pred (l1 l2 : Line) : Bool := geo_intersects l1 l2

/-- The loop body of the exclusive boolean driver: `continue` on shared
endpoints, otherwise `geo`'s `intersects`. -/
def exclusive_pred (l1 l2 : Line) : Bool :=
  !endpoints_share l1 l2 && geo_intersects l1 l2

/-- `SelfIntersectingInclusive::is_self_intersecting_inclusive` for
`Vec<geo::Line<T>>`.  The brute-force branch has no finiteness sanity
check in the source. -/
def is_self_intersecting_inclusive (engine : SweepFn) (lines : List Line) :
    Except IntersectError Bool :=
  if lines.length < 25 then
    .ok (outer_any inclusive_pred lines)
  else
    (engine false true lines).map (fun r => !r.isEmpty)

/-- `SelfIntersectingInclusive::self_intersections_inclusive` for
`Vec<geo::Line<T>>`. -/
def self_intersections_inclusive (sqrtf : Flt → Flt) (engine : SweepFn)
    (lines : List Line) : Except IntersectError (List IntersectionRecord) :=
  if lines.length < 25 then
    if lines.all line_is_finite then
      .ok (outer_scan (inclusive_probe sqrtf) (indexFrom 0 lines))
    else .error .InvalidData
  else
    engine false false lines

/-- `SelfIntersectingExclusive::is_self_intersecting` for
`Vec<geo::Line<T>>`. -/
def is_self_intersecting (engine : SweepFn) (lines : List Line) :
    Except IntersectError Bool :=
  if lines.length < 25 then
    if lines.all line_is_finite then
      .ok (outer_any exclusive_pred lines)
    else .error .InvalidData
  else
    (engine true true lines).map (fun r => !r.isEmpty)

/-- `SelfIntersectingExclusive::self_intersections` for
`Vec<geo::Line<T>>`. -/
def self_intersections (sqrtf : Flt → Flt) (engine : SweepFn)
    (lines : List Line) : Except IntersectError (List IntersectionRecord) :=
  if lines.length < 25 then
    if lines.all line_is_finite then
      .ok (outer_scan (exclusive_probe sqrtf) (indexFrom 0 lines))
    else .error .InvalidData
  else
    engine true false lines

/-- `LineString::lines()`: the consecutive segments of a polyline. -/
def lines_of : List Coordinate → List Line
  | a :: b :: tl => ⟨a, b⟩ :: lines_of (b :: tl)
  | _ => []

/-- `SelfIntersectingExclusive::is_self_intersecting` for
`geo::LineString<T>`.  The size test is on `self.0.len()` — the number of
vertices, not the number of segments. -/
def line_string_is_self_intersecting (engine : SweepFn)
    (vertices : List Coordinate) : Except IntersectError Bool :=
  if vertices.length < 25 then
    if vertices.all coordinate_is_finite then
      .ok (outer_any exclusive_pred (lines_of vertices))
    else .error .InvalidData
  else
    (engine true true (lines_of vertices)).map (fun r => !r.isEmpty)

/-- `SelfIntersectingExclusive::self_intersections` for
`geo::LineString<T>`.  The size test is on the number of vertices. -/
def line_string_self_intersections (sqrtf : Flt → Flt) (engine : SweepFn)
    (vertices : List Coordinate) : Except IntersectError (List IntersectionRecord) :=
  if vertices.length < 25 then
    if vertices.all coordinate_is_finite then
      .ok (outer_scan (exclusive_probe sqrtf) (indexFrom 0 (lines_of vertices)))
    else .error .InvalidData
  else
    engine true false (lines_of vertices)

/-! ## Mathematical segment membership and concrete inputs -/

/-- The point `p` lies on the closed segment `l` (exact mathematical
membership, used to state that concrete inputs truly do not intersect). -/
def onSegment (l : Line) (p : ℚ × ℚ) : Prop :=
  ∃ t : ℚ, 0 ≤ t ∧ t ≤ 1
    ∧ p.1 = l.start.x.val + t * (l.stop.x.val - l.start.x.val)
    ∧ p.2 = l.start.y.val + t * (l.stop.y.val - l.start.y.val)

/-- A finite line from four rational coordinates. -/
def mkLine (x1 y1 x2 y2 : ℚ) : Line := ⟨⟨fq x1, fq y1⟩, ⟨fq x2, fq y2⟩⟩

/-- The identity, standing in for `T::sqrt` where no theorem depends on the
square root's value. -/
def sqrt_id : Flt → Flt := fun a => a

/-- A sweep engine that yields no intersections (an arbitrary engine
instance for closed statements below the threshold, where no engine is
consulted). -/
def empty_sweep : SweepFn := fun _ _ _ => .ok []

/-- A sweep engine that fails (used to show a façade call does consult the
engine). -/
def fail_sweep : SweepFn := fun _ _ _ => .error .InternalError

/-- The strict ordering of two records by their index lists — `[i, j]`
before `[i', j']` when `i < i'`, or `i = i'` and `j < j'` (pair-enumeration
order). -/
def record_index_lt (r1 r2 : IntersectionRecord) : Prop :=
  List.Lex (fun a b : ℕ => a < b) r1.2 r2.2

/-- First segment of the closed theorems: `(0,0)–(2,2)`. -/
def c1_seg_a : Line := mkLine 0 0 2 2

/-- Second segment: `(3/2,0)–(3,1/2)`.  Its bounding box overlaps the first
segment's, yet the two segments share no point: the supporting lines cross
at `(-3/4,-3/4)`, outside both. -/
def c1_seg_b : Line := mkLine (3/2) 0 3 (1/2)

/-- First segment of the C3 theorem: `(0,0)–(4,4)`. -/
def c3_seg_a : Line := mkLine 0 0 4 4

/-- Second segment of the C3 theorem: `(3,0)–(6,1)`; shares no point with
`c3_seg_a` (the supporting lines cross at `(-3/2,-3/2)`). -/
def c3_seg_b : Line := mkLine 3 0 6 1

/-- A line whose start x-coordinate is non-finite (NaN). -/
def bad_line : Line := ⟨⟨⟨0, false⟩, fq 0⟩, ⟨fq 1, fq 1⟩⟩

/-- Twenty-five vertices: a polyline of 24 segments (the façade's dispatch
inspects only the vertex count). -/
def vertices_25 : List Coordinate := List.replicate 25 ⟨fq 0, fq 0⟩

/-- Witness pair for the general (non-parallel) branch: the diagonals of the
unit-square scaled by two; they cross at `(1,1)`. -/
def w_cross_a : Line := mkLine 0 0 2 2

/-- Second diagonal. -/
def w_cross_b : Line := mkLine 0 2 2 0

/-- Witness pair for the collinear-overlap branch: `(0,0)–(2,0)`. -/
def w_col_a : Line := mkLine 0 0 2 0

/-- Collinear with `w_col_a`, overlapping it on `[1,2]`. -/
def w_col_b : Line := mkLine 1 0 3 0

/-- A degenerate (single-point) segment at `(1,1)`. -/
def w_point : Line := mkLine 1 1 1 1

/-! ## Basic lemmas about the numeric model -/

lemma add_def (a b : Flt) : a + b = ⟨a.val + b.val, a.finite && b.finite⟩ := rfl

lemma sub_def (a b : Flt) : a - b = ⟨a.val - b.val, a.finite && b.finite⟩ := rfl

lemma mul_def (a b : Flt) : a * b = ⟨a.val * b.val, a.finite && b.finite⟩ := rfl

lemma div_def (a b : Flt) : a / b = ⟨a.val / b.val, a.finite && b.finite⟩ := rfl

lemma coord_sub_def (a b : Coordinate) : a - b = ⟨a.x - b.x, a.y - b.y⟩ := rfl

lemma ulps_eq_true_iff (a b : Flt) :
    ulps_eq a b = true ↔ a.finite = true ∧ b.finite = true ∧ a.val = b.val := by
  simp [ulps_eq, and_assoc]

lemma ulps_eq_c_true_iff (a b : Coordinate) :
    ulps_eq_c a b = true ↔
      (a.x.finite = true ∧ b.x.finite = true ∧ a.x.val = b.x.val)
        ∧ (a.y.finite = true ∧ b.y.finite = true ∧ a.y.val = b.y.val) := by
  simp [ulps_eq_c, ulps_eq_true_iff]

/-- Dividing the second factor of a cross product by a scalar divides the
cross product: the source's `cross(q − p, s / (r × s))` is the
specification's `cross(q − p, s) / (r × s)`. -/
lemma cross_z_div (a b : Coordinate) (c : Flt) :
    cross_z a (div b c) = cross_z a b / c := by
  obtain ⟨⟨av, af⟩, ⟨aw, ag⟩⟩ := a
  obtain ⟨⟨bv, bf⟩, ⟨bw, bg⟩⟩ := b
  obtain ⟨cv, cf⟩ := c
  refine Flt.ext ?_ ?_
  · show av * (bw / cv) - aw * (bv / cv) = (av * bw - aw * bv) / cv
    ring
  · show ((af && (bg && cf)) && (ag && (bf && cf))) = (((af && bg) && (ag && bf)) && cf)
    cases af <;> cases ag <;> cases bf <;> cases bg <;> cases cf <;> rfl

/-- Dividing the second factor of a dot product by a scalar divides the dot
product: the source's `dot(q − p, r / (r · r))` is the specification's
`((q − p) · r) / (r · r)`. -/
lemma dot_div (a b : Coordinate) (c : Flt) :
    dot a (div b c) = dot a b / c := by
  obtain ⟨⟨av, af⟩, ⟨aw, ag⟩⟩ := a
  obtain ⟨⟨bv, bf⟩, ⟨bw, bg⟩⟩ := b
  obtain ⟨cv, cf⟩ := c
  refine Flt.ext ?_ ?_
  · show av * (bv / cv) + aw * (bw / cv) = (av * bv + aw * bw) / cv
    ring
  · show ((af && (bf && cf)) && (ag && (bg && cf))) = (((af && bf) && (ag && bg)) && cf)
    cases af <;> cases ag <;> cases bf <;> cases bg <;> cases cf <;> rfl

/-! ## Lemmas about the brute-force loops -/

lemma indexFrom_cons (k : ℕ) (l : Line) (tl : List Line) :
    indexFrom k (l :: tl) = (k, l) :: indexFrom (k + 1) tl := rfl

lemma mem_indexFrom (p : ℕ × Line) (k : ℕ) (ls : List Line) :
    p ∈ indexFrom k ls ↔ ∃ m, ls[m]? = some p.2 ∧ p.1 = k + m := by
  induction ls generalizing k with
  | nil => simp [indexFrom]
  | cons l tl ih =>
    rw [indexFrom_cons]
    simp only [List.mem_cons, ih]
    constructor
    · rintro (h | ⟨m, hm, hk⟩)
      · subst h
        exact ⟨0, by simp⟩
      · exact ⟨m + 1, by simpa using hm, by omega⟩
    · rintro ⟨m, hm, hk⟩
      cases m with
      | zero =>
        left
        obtain ⟨p1, p2⟩ := p
        simp at hm hk
        simp [hm, hk]
      | succ m =>
        right
        exact ⟨m, by simpa using hm, by omega⟩

lemma inner_scan_eq_filterMap (probe : Line → Line → Option Intersection)
    (i : ℕ) (l1 : Line) (ps : List (ℕ × Line)) :
    inner_scan probe i l1 ps
      = ps.filterMap (fun q => (probe l1 q.2).map (fun r => (r.single, [i, q.1]))) := by
  induction ps with
  | nil => rfl
  | cons q tl ih =>
    obtain ⟨j, l2⟩ := q
    cases h : probe l1 l2 <;>
      simp [inner_scan, List.filterMap_cons, h, ih]

lemma mem_inner_scan (probe : Line → Line → Option Intersection) (i : ℕ) (l1 : Line)
    (k : ℕ) (rest : List Line) (r : IntersectionRecord) :
    r ∈ inner_scan probe i l1 (indexFrom k rest) ↔
      ∃ m l2 ir, rest[m]? = some l2 ∧ probe l1 l2 = some ir
        ∧ r = (ir.single, [i, k + m]) := by
  rw [inner_scan_eq_filterMap]
  simp only [List.mem_filterMap, mem_indexFrom, Option.map_eq_some']
  constructor
  · rintro ⟨⟨j, l2⟩, ⟨m, hm, hk⟩, ir, hir, hr⟩
    simp only at hm hk hir
    subst hk
    exact ⟨m, l2, ir, hm, hir, hr.symm⟩
  · rintro ⟨m, l2, ir, hm, hir, hr⟩
    exact ⟨(k + m, l2), ⟨m, by simpa using hm, rfl⟩, ir, hir, hr.symm⟩

lemma mem_outer_scan (probe : Line → Line → Option Intersection)
    (k : ℕ) (ls : List Line) (r : IntersectionRecord) :
    r ∈ outer_scan probe (indexFrom k ls) ↔
      ∃ a b l1 l2 ir, ls[a]? = some l1 ∧ ls[b]? = some l2 ∧ a < b
        ∧ probe l1 l2 = some ir ∧ r = (ir.single, [k + a, k + b]) := by
  induction ls generalizing k with
  | nil => simp [indexFrom, outer_scan]
  | cons l tl ih =>
    rw [indexFrom_cons]
    simp only [outer_scan, List.mem_append, mem_inner_scan, ih]
    constructor
    · rintro (⟨m, l2, ir, hm, hir, hr⟩ | ⟨a, b, l1, l2, ir, ha, hb, hab, hir, hr⟩)
      · refine ⟨0, m + 1, l, l2, ir, by simp, by simpa using hm, by omega, hir, ?_⟩
        rw [hr, show k + 0 = k from by omega, show k + (m + 1) = k + 1 + m from by omega]
      · refine ⟨a + 1, b + 1, l1, l2, ir, by simpa using ha, by simpa using hb,
          by omega, hir, ?_⟩
        rw [hr, show k + (a + 1) = k + 1 + a from by omega,
          show k + (b + 1) = k + 1 + b from by omega]
    · rintro ⟨a, b, l1, l2, ir, ha, hb, hab, hir, hr⟩
      cases a with
      | zero =>
        left
        simp only [List.getElem?_cons_zero, Option.some.injEq] at ha
        obtain ⟨b', rfl⟩ : ∃ b', b = b' + 1 := ⟨b - 1, by omega⟩
        refine ⟨b', l2, ir, by simpa using hb, by rw [ha]; exact hir, ?_⟩
        rw [hr, show k + 0 = k from by omega,
          show k + (b' + 1) = k + 1 + b' from by omega]
      | succ a =>
        right
        obtain ⟨b', rfl⟩ : ∃ b', b = b' + 1 := ⟨b - 1, by omega⟩
        refine ⟨a, b', l1, l2, ir, by simpa using ha, by simpa using hb,
          by omega, hir, ?_⟩
        rw [hr, show k + (a + 1) = k + 1 + a from by omega,
          show k + (b' + 1) = k + 1 + b' from by omega]

lemma inner_scan_snd (probe : Line → Line → Option Intersection) (i : ℕ) (l1 : Line)
    (k : ℕ) (rest : List Line) (r : IntersectionRecord)
    (h : r ∈ inner_scan probe i l1 (indexFrom k rest)) :
    ∃ j, k ≤ j ∧ r.2 = [i, j] := by
  rw [mem_inner_scan] at h
  obtain ⟨m, l2, ir, _, _, hr⟩ := h
  exact ⟨k + m, by omega, by rw [hr]⟩

lemma pairwise_inner_scan (probe : Line → Line → Option Intersection) (i : ℕ)
    (l1 : Line) (k : ℕ) (rest : List Line) :
    (inner_scan probe i l1 (indexFrom k rest)).Pairwise record_index_lt := by
  induction rest generalizing k with
  | nil => exact List.Pairwise.nil
  | cons l2 tl ih =>
    rw [indexFrom_cons]
    show (inner_scan probe i l1 ((k, l2) :: indexFrom (k + 1) tl)).Pairwise _
    rw [show inner_scan probe i l1 ((k, l2) :: indexFrom (k + 1) tl)
        = (match probe l1 l2 with
           | some r => [(r.single, [i, k])]
           | none => []) ++ inner_scan probe i l1 (indexFrom (k + 1) tl) from rfl]
    rw [List.pairwise_append]
    refine ⟨?_, ih (k + 1), ?_⟩
    · cases probe l1 l2 <;> simp
    · intro a ha b hb
      obtain ⟨j, hj, hsnd⟩ := inner_scan_snd probe i l1 (k + 1) tl b hb
      cases h : probe l1 l2 with
      | none => rw [h] at ha; simp at ha
      | some ir =>
        rw [h] at ha
        simp only [List.mem_singleton] at ha
        rw [ha]
        show List.Lex _ [i, k] b.2
        rw [hsnd]
        exact List.Lex.cons (List.Lex.rel (by omega))

lemma outer_scan_snd (probe : Line → Line → Option Intersection)
    (k : ℕ) (ls : List Line) (r : IntersectionRecord)
    (h : r ∈ outer_scan probe (indexFrom k ls)) :
    ∃ i j, k ≤ i ∧ i < j ∧ r.2 = [i, j] := by
  rw [mem_outer_scan] at h
  obtain ⟨a, b, l1, l2, ir, _, _, hab, _, hr⟩ := h
  exact ⟨k + a, k + b, by omega, by omega, by rw [hr]⟩

lemma pairwise_outer_scan (probe : Line → Line → Option Intersection)
    (k : ℕ) (ls : List Line) :
    (outer_scan probe (indexFrom k ls)).Pairwise record_index_lt := by
  induction ls generalizing k with
  | nil => exact List.Pairwise.nil
  | cons l1 tl ih =>
    rw [indexFrom_cons]
    show (inner_scan probe k l1 (indexFrom (k + 1) tl)
        ++ outer_scan probe (indexFrom (k + 1) tl)).Pairwise _
    rw [List.pairwise_append]
    refine ⟨pairwise_inner_scan probe k l1 (k + 1) tl, ih (k + 1), ?_⟩
    intro a ha b hb
    obtain ⟨j, _, hsnd⟩ := inner_scan_snd probe k l1 (k + 1) tl a ha
    obtain ⟨i2, j2, hi2, _, hsnd2⟩ := outer_scan_snd probe (k + 1) tl b hb
    show List.Lex _ a.2 b.2
    rw [hsnd, hsnd2]
    exact List.Lex.rel (by omega)

/-- The polyline of `n` vertices yields `n - 1` segments. -/
lemma lines_of_length (vs : List Coordinate) : (lines_of vs).length = vs.length - 1 := by
  induction vs with
  | nil => rfl
  | cons a tl ih =>
    cases tl with
    | nil => rfl
    | cons b tl2 => simpa [lines_of] using ih

/-! ## The claims -/

/-- C5: for every pair of segments `S1 = (p, p + r)` and `S2 = (q, q + s)`
whose bounding boxes are not strictly disjoint and with `cross(r, s)` not
ULP-equal to zero, `intersect` returns a single-point intersection equal to
`p + t·r` where `t = cross(q − p, s) / cross(r, s)`. -/
theorem c5_general_branch_point (sqrtf : Flt → Flt) (one other : Line)
    (hbb : aabb_reject one other = false)
    (hcross : ulps_eq (cross_z (one.stop - one.start) (other.stop - other.start))
      flt_zero = false) :
    intersect sqrtf one other
      = some (.Intersection (scale_to_coordinate one.start (one.stop - one.start)
          (cross_z (other.start - one.start) (other.stop - other.start)
            / cross_z (one.stop - one.start) (other.stop - other.start)))) := by
  simp only [intersect]
  rw [hbb, hcross]
  simp only [Bool.false_eq_true, if_false, cross_z_div]

/-- C5's theorem applied to the crossing pair `(0,0)–(2,2)`, `(0,2)–(2,0)`:
the computed parameter is `t = 1/2` and the returned point is `(1,1)`. -/
theorem c5_general_branch_point_witness :
    intersect sqrt_id w_cross_a w_cross_b
      = some (.Intersection (scale_to_coordinate w_cross_a.start
          (w_cross_a.stop - w_cross_a.start)
          (cross_z (w_cross_b.start - w_cross_a.start)
              (w_cross_b.stop - w_cross_b.start)
            / cross_z (w_cross_a.stop - w_cross_a.start)
              (w_cross_b.stop - w_cross_b.start)))) :=
  c5_general_branch_point sqrt_id w_cross_a w_cross_b
    (by norm_num [aabb_reject, flt_gt, flt_lt, w_cross_a, w_cross_b, mkLine, fq])
    (by norm_num [ulps_eq, cross_z, flt_zero, w_cross_a, w_cross_b, mkLine, fq,
      sub_def, mul_def, coord_sub_def])

/-- C6: for every pair of non-degenerate segments whose bounding boxes are
not strictly disjoint, with `cross(r, s)` ULP-equal to zero and
`cross(q − p, r)` ULP-equal to zero, `intersect` returns a collinear-overlap
segment from `p + t0·r` to `p + t1·r` where `t0 = (q − p)·r / r·r` and
`t1 = t0 + s·r / r·r`, without clipping `t0` or `t1` to `[0, 1]`. -/
theorem c6_collinear_overlap (sqrtf : Flt → Flt) (one other : Line)
    (hbb : aabb_reject one other = false)
    (hpar : ulps_eq (cross_z (one.stop - one.start) (other.stop - other.start))
      flt_zero = true)
    (hone : ulps_eq_c one.start one.stop = false)
    (hother : ulps_eq_c other.start other.stop = false)
    (hcol : ulps_eq (cross_z (other.start - one.start) (one.stop - one.start))
      flt_zero = true) :
    intersect sqrtf one other
      = some (.OverLap ⟨
          scale_to_coordinate one.start (one.stop - one.start)
            (dot (other.start - one.start) (one.stop - one.start)
              / dot (one.stop - one.start) (one.stop - one.start)),
          scale_to_coordinate one.start (one.stop - one.start)
            (dot (other.start - one.start) (one.stop - one.start)
                / dot (one.stop - one.start) (one.stop - one.start)
              + dot (other.stop - other.start) (one.stop - one.start)
                / dot (one.stop - one.start) (one.stop - one.start))⟩) := by
  simp only [intersect]
  rw [hbb, hpar, hone, hother, hcol]
  simp only [Bool.false_eq_true, if_false, Bool.or_self, Bool.false_or,
    if_true, dot_div]

/-- C6's theorem applied to the collinear pair `(0,0)–(2,0)`, `(1,0)–(3,0)`:
the returned overlap runs from parameter `t0 = 1/2` to `t1 = 3/2` — beyond
the end of the first segment, confirming that the overlap is not clipped. -/
theorem c6_collinear_overlap_witness :
    intersect sqrt_id w_col_a w_col_b
      = some (.OverLap ⟨
          scale_to_coordinate w_col_a.start (w_col_a.stop - w_col_a.start)
            (dot (w_col_b.start - w_col_a.start) (w_col_a.stop - w_col_a.start)
              / dot (w_col_a.stop - w_col_a.start) (w_col_a.stop - w_col_a.start)),
          scale_to_coordinate w_col_a.start (w_col_a.stop - w_col_a.start)
            (dot (w_col_b.start - w_col_a.start) (w_col_a.stop - w_col_a.start)
                / dot (w_col_a.stop - w_col_a.start) (w_col_a.stop - w_col_a.start)
              + dot (w_col_b.stop - w_col_b.start) (w_col_a.stop - w_col_a.start)
                / dot (w_col_a.stop - w_col_a.start) (w_col_a.stop - w_col_a.start))⟩) :=
  c6_collinear_overlap sqrt_id w_col_a w_col_b
    (by norm_num [aabb_reject, flt_gt, flt_lt, w_col_a, w_col_b, mkLine, fq])
    (by norm_num [ulps_eq, cross_z, flt_zero, w_col_a, w_col_b, mkLine, fq,
      sub_def, mul_def, coord_sub_def])
    (by norm_num [ulps_eq_c, ulps_eq, w_col_a, mkLine, fq])
    (by norm_num [ulps_eq_c, ulps_eq, w_col_b, mkLine, fq])
    (by norm_num [ulps_eq, cross_z, flt_zero, w_col_a, w_col_b, mkLine, fq,
      sub_def, mul_def, coord_sub_def])

/-- C10: whenever `intersect_line_point` returns `Some`, the result is the
single-point variant (never a collinear overlap) and its coordinate is the
query point that was passed in — not a projection onto the segment. -/
theorem c10_query_point_passthrough (sqrtf : Flt → Flt) (line : Line)
    (point : Coordinate) (r : Intersection)
    (h : intersect_line_point sqrtf line point = some r) :
    r = .Intersection point := by
  simp only [intersect_line_point] at h
  split_ifs at h <;> simp only [Option.some.injEq] at h <;> exact h.symm

/-- C10's theorem applied to the segment `(0,0)–(2,0)` and the query point
`(0,0)` (its start). -/
theorem c10_query_point_passthrough_witness :
    (Intersection.Intersection ⟨fq 0, fq 0⟩ : Intersection)
      = .Intersection ⟨fq 0, fq 0⟩ :=
  c10_query_point_passthrough sqrt_id w_col_a ⟨fq 0, fq 0⟩
    (.Intersection ⟨fq 0, fq 0⟩)
    (by norm_num [intersect_line_point, ulps_eq, w_col_a, mkLine, fq])

/-- C7: `intersect_line_point` returns an intersection if and only if the
(`sqrtf`-computed) Euclidean length `|AB|` is ULP-equal to `|AP| + |PB|` or
the point ULP-equals one of the segment's endpoints; and when `intersect`
reduces to this test on degenerate segments, two degenerate coincident
point-segments yield that point. -/
theorem c7_segment_point_test :
    (∀ (sqrtf : Flt → Flt) (line : Line) (point : Coordinate),
      (intersect_line_point sqrtf line point).isSome = true ↔
        (ulps_eq_c line.start point || ulps_eq_c line.stop point
          || ulps_eq
              (sqrtf ((line.stop.x - line.start.x) * (line.stop.x - line.start.x)
                + (line.stop.y - line.start.y) * (line.stop.y - line.start.y)))
              (sqrtf ((point.x - line.start.x) * (point.x - line.start.x)
                  + (point.y - line.start.y) * (point.y - line.start.y))
                + sqrtf ((line.stop.x - point.x) * (line.stop.x - point.x)
                  + (line.stop.y - point.y) * (line.stop.y - point.y)))) = true)
    ∧ (∀ (sqrtf : Flt → Flt) (one other : Line),
      ulps_eq_c one.start one.stop = true →
      ulps_eq_c other.start other.stop = true →
      ulps_eq_c one.start other.start = true →
      intersect sqrtf one other = some (.Intersection one.start)) := by
  constructor
  · intro sqrtf line point
    simp only [intersect_line_point, ulps_eq_c]
    by_cases h1 : (ulps_eq line.start.x point.x && ulps_eq line.start.y point.y) = true
    · simp [h1]
    · by_cases h2 : (ulps_eq line.stop.x point.x && ulps_eq line.stop.y point.y) = true
      · simp [h1, h2]
      · by_cases h3 : ulps_eq
            (sqrtf ((line.stop.x - line.start.x) * (line.stop.x - line.start.x)
              + (line.stop.y - line.start.y) * (line.stop.y - line.start.y)))
            (sqrtf ((point.x - line.start.x) * (point.x - line.start.x)
                + (point.y - line.start.y) * (point.y - line.start.y))
              + sqrtf ((line.stop.x - point.x) * (line.stop.x - point.x)
                + (line.stop.y - point.y) * (line.stop.y - point.y))) = true
        · simp [h1, h2, h3]
        · simp [h1, h2, h3]
  · intro sqrtf one other h1 h2 h3
    obtain ⟨⟨⟨ax, af⟩, ⟨ay, ag⟩⟩, ⟨⟨bx, bf⟩, ⟨bw, bg⟩⟩⟩ := one
    obtain ⟨⟨⟨cx, cf⟩, ⟨cy, cg⟩⟩, ⟨⟨dx, df⟩, ⟨dy, dg⟩⟩⟩ := other
    rw [ulps_eq_c_true_iff] at h1 h2 h3
    simp only at h1 h2 h3
    obtain ⟨⟨haf, hbf, hx1⟩, hag, hbg, hy1⟩ := h1
    obtain ⟨⟨hcf, hdf, hx2⟩, hcg, hdg, hy2⟩ := h2
    obtain ⟨⟨-, -, hx3⟩, -, -, hy3⟩ := h3
    subst haf hbf hag hbg hcf hdf hcg hdg hx1 hy1 hx2 hy2 hx3 hy3
    norm_num [intersect, aabb_reject, flt_gt, flt_lt, ulps_eq, ulps_eq_c,
      cross_z, flt_zero, sub_def, mul_def, coord_sub_def]

/-- C7's theorem applied to the segment `(0,0)–(2,0)` with query point
`(1,1)` (first part, with the identity standing in for `sqrt`), and to two
coincident degenerate segments at `(1,1)` (second part). -/
theorem c7_segment_point_test_witness :
    ((intersect_line_point sqrt_id w_col_a ⟨fq 1, fq 1⟩).isSome = true ↔
      (ulps_eq_c w_col_a.start ⟨fq 1, fq 1⟩ || ulps_eq_c w_col_a.stop ⟨fq 1, fq 1⟩
        || ulps_eq
            (sqrt_id ((w_col_a.stop.x - w_col_a.start.x) * (w_col_a.stop.x - w_col_a.start.x)
              + (w_col_a.stop.y - w_col_a.start.y) * (w_col_a.stop.y - w_col_a.start.y)))
            (sqrt_id (((⟨fq 1, fq 1⟩ : Coordinate).x - w_col_a.start.x)
                  * ((⟨fq 1, fq 1⟩ : Coordinate).x - w_col_a.start.x)
                + ((⟨fq 1, fq 1⟩ : Coordinate).y - w_col_a.start.y)
                  * ((⟨fq 1, fq 1⟩ : Coordinate).y - w_col_a.start.y))
              + sqrt_id ((w_col_a.stop.x - (⟨fq 1, fq 1⟩ : Coordinate).x)
                  * (w_col_a.stop.x - (⟨fq 1, fq 1⟩ : Coordinate).x)
                + (w_col_a.stop.y - (⟨fq 1, fq 1⟩ : Coordinate).y)
                  * (w_col_a.stop.y - (⟨fq 1, fq 1⟩ : Coordinate).y)))) = true)
    ∧ intersect sqrt_id w_point w_point = some (.Intersection w_point.start) :=
  ⟨c7_segment_point_test.1 sqrt_id w_col_a ⟨fq 1, fq 1⟩,
    c7_segment_point_test.2 sqrt_id w_point w_point
      (by norm_num [ulps_eq_c, ulps_eq, w_point, mkLine, fq])
      (by norm_num [ulps_eq_c, ulps_eq, w_point, mkLine, fq])
      (by norm_num [ulps_eq_c, ulps_eq, w_point, mkLine, fq])⟩

/-- C2 (amended): below the sweep threshold, `is_self_intersecting`,
`self_intersections` and `self_intersections_inclusive` validate all
endpoints before enumerating any pair and fail with `InvalidData` when any
coordinate is non-finite; `is_self_intersecting_inclusive` performs no such
validation in its brute-force branch (see the counterexample). -/
theorem c2_validation_amended (sqrtf : Flt → Flt) (engine : SweepFn)
    (lines : List Line) (hlen : lines.length < 25)
    (hbad : lines.all line_is_finite = false) :
    is_self_intersecting engine lines = .error .InvalidData
    ∧ self_intersections sqrtf engine lines = .error .InvalidData
    ∧ self_intersections_inclusive sqrtf engine lines = .error .InvalidData := by
  refine ⟨?_, ?_, ?_⟩ <;>
    simp [is_self_intersecting, self_intersections, self_intersections_inclusive,
      hlen, hbad]

/-- C2's amended theorem applied to the single-element collection holding a
segment with a NaN start coordinate. -/
theorem c2_validation_amended_witness :
    is_self_intersecting empty_sweep [bad_line] = .error .InvalidData
    ∧ self_intersections sqrt_id empty_sweep [bad_line] = .error .InvalidData
    ∧ self_intersections_inclusive sqrt_id empty_sweep [bad_line]
      = .error .InvalidData :=
  c2_validation_amended sqrt_id empty_sweep [bad_line] (by norm_num)
    (by norm_num [line_is_finite, bad_line, fq])

/-- C2's counterexample: on the same non-finite single-element collection,
below the threshold, `is_self_intersecting_inclusive` does not fail with
`InvalidData` — it runs the pair loop without any validation and returns
`Ok(false)`. -/
theorem c2_inclusive_skips_validation :
    [bad_line].length < 25 ∧ line_is_finite bad_line = false
    ∧ is_self_intersecting_inclusive empty_sweep [bad_line] = .ok false := by
  refine ⟨by norm_num, by norm_num [line_is_finite, bad_line, fq], ?_⟩
  norm_num [is_self_intersecting_inclusive, outer_any, inner_any]

/-- C4 (amended): each `Vec<geo::Line<T>>` façade operation selects the
brute-force driver exactly when the number of segments is below 25 (below
the threshold the result does not depend on the engine; at or above it the
call is routed to the engine with the configuration flags the source sets).
The `geo::LineString<T>` operations, however, test the number of
**vertices** against 25: a polyline of `n` vertices has `n - 1` segments,
so it is routed to the sweep engine already at 24 segments. -/
theorem c4_threshold_amended :
    (∀ (sqrtf : Flt → Flt) (f g : SweepFn) (lines : List Line),
      (lines.length < 25 →
        self_intersections sqrtf f lines = self_intersections sqrtf g lines
        ∧ self_intersections_inclusive sqrtf f lines
          = self_intersections_inclusive sqrtf g lines
        ∧ is_self_intersecting f lines = is_self_intersecting g lines
        ∧ is_self_intersecting_inclusive f lines
          = is_self_intersecting_inclusive g lines)
      ∧ (25 ≤ lines.length →
        self_intersections sqrtf f lines = f true false lines
        ∧ self_intersections_inclusive sqrtf f lines = f false false lines
        ∧ is_self_intersecting f lines
          = (f true true lines).map (fun r => !r.isEmpty)
        ∧ is_self_intersecting_inclusive f lines
          = (f false true lines).map (fun r => !r.isEmpty)))
    ∧ (∀ (sqrtf : Flt → Flt) (f g : SweepFn) (vertices : List Coordinate),
      (lines_of vertices).length = vertices.length - 1
      ∧ (vertices.length < 25 →
        line_string_self_intersections sqrtf f vertices
          = line_string_self_intersections sqrtf g vertices
        ∧ line_string_is_self_intersecting f vertices
          = line_string_is_self_intersecting g vertices)
      ∧ (25 ≤ vertices.length →
        line_string_self_intersections sqrtf f vertices
          = f true false (lines_of vertices)
        ∧ line_string_is_self_intersecting f vertices
          = (f true true (lines_of vertices)).map (fun r => !r.isEmpty))) := by
  constructor
  · intro sqrtf f g lines
    constructor
    · intro h
      refine ⟨?_, ?_, ?_, ?_⟩ <;>
        simp [self_intersections, self_intersections_inclusive,
          is_self_intersecting, is_self_intersecting_inclusive, h]
    · intro h
      have h' : ¬ lines.length < 25 := by omega
      refine ⟨?_, ?_, ?_, ?_⟩ <;>
        simp [self_intersections, self_intersections_inclusive,
          is_self_intersecting, is_self_intersecting_inclusive, h']
  · intro sqrtf f g vertices
    refine ⟨lines_of_length vertices, ?_, ?_⟩
    · intro h
      refine ⟨?_, ?_⟩ <;>
        simp [line_string_self_intersections, line_string_is_self_intersecting, h]
    · intro h
      have h' : ¬ vertices.length < 25 := by omega
      refine ⟨?_, ?_⟩ <;>
        simp [line_string_self_intersections, line_string_is_self_intersecting, h']

/-- C4's counterexample: a polyline of 25 vertices has only 24 segments —
below the claimed 25-segment threshold — yet its `self_intersections` is
routed to the sweep engine: the result depends on the engine instance. -/
theorem c4_vertex_count_threshold_counterexample :
    vertices_25.length = 25 ∧ (lines_of vertices_25).length = 24
    ∧ line_string_self_intersections sqrt_id empty_sweep vertices_25
      ≠ line_string_self_intersections sqrt_id fail_sweep vertices_25 := by
  have hv : vertices_25.length = 25 := by
    rw [vertices_25, List.length_replicate]
  refine ⟨hv, by rw [lines_of_length, hv], ?_⟩
  have h1 : line_string_self_intersections sqrt_id empty_sweep vertices_25
      = .ok [] := by
    rw [line_string_self_intersections, if_neg (by rw [hv]; norm_num)]
    rfl
  have h2 : line_string_self_intersections sqrt_id fail_sweep vertices_25
      = .error .InternalError := by
    rw [line_string_self_intersections, if_neg (by rw [hv]; norm_num)]
    rfl
  rw [h1, h2]
  intro h
  cases h

/-! ### The brute-force façade below the threshold -/

lemma self_intersections_below (sqrtf : Flt → Flt) (engine : SweepFn)
    (lines : List Line) (hlen : lines.length < 25)
    (hfin : lines.all line_is_finite = true) :
    self_intersections sqrtf engine lines
      = .ok (outer_scan (exclusive_probe sqrtf) (indexFrom 0 lines)) := by
  simp [self_intersections, hlen, hfin]

lemma self_intersections_inclusive_below (sqrtf : Flt → Flt) (engine : SweepFn)
    (lines : List Line) (hlen : lines.length < 25)
    (hfin : lines.all line_is_finite = true) :
    self_intersections_inclusive sqrtf engine lines
      = .ok (outer_scan (inclusive_probe sqrtf) (indexFrom 0 lines)) := by
  simp [self_intersections_inclusive, hlen, hfin]

/-- C8: for every pair `(i, j)` with `i < j` enumerated by the brute-force
driver under the exclusive policy, the pair contributes a record exactly
when no endpoint of segment `i` ULP-equals an endpoint of segment `j` and
the two-segment intersector returns an intersection; under the inclusive
policy the pair contributes exactly when the intersector returns an
intersection (every returned intersection is reported). -/
theorem c8_pair_policy (sqrtf : Flt → Flt) (engine : SweepFn) (lines : List Line)
    (out out' : List IntersectionRecord) (i j : ℕ) (l1 l2 : Line)
    (hlen : lines.length < 25) (hfin : lines.all line_is_finite = true)
    (hex : self_intersections sqrtf engine lines = .ok out)
    (hin : self_intersections_inclusive sqrtf engine lines = .ok out')
    (hi : lines[i]? = some l1) (hj : lines[j]? = some l2) (hij : i < j) :
    ((∃ p, (p, [i, j]) ∈ out) ↔
      endpoints_share l1 l2 = false ∧ (intersect sqrtf l1 l2).isSome = true)
    ∧ ((∃ p, (p, [i, j]) ∈ out') ↔ (intersect sqrtf l1 l2).isSome = true) := by
  rw [self_intersections_below sqrtf engine lines hlen hfin] at hex
  rw [self_intersections_inclusive_below sqrtf engine lines hlen hfin] at hin
  obtain rfl := (Except.ok.inj hex).symm
  obtain rfl := (Except.ok.inj hin).symm
  constructor
  · constructor
    · rintro ⟨p, hp⟩
      rw [mem_outer_scan] at hp
      obtain ⟨a, b, l1', l2', ir, ha, hb, hab, hpr, heq⟩ := hp
      simp only [Prod.mk.injEq, List.cons.injEq, and_true, Nat.zero_add] at heq
      obtain ⟨-, rfl, rfl⟩ := heq
      rw [hi] at ha
      rw [hj] at hb
      obtain rfl := Option.some.inj ha
      obtain rfl := Option.some.inj hb
      by_cases hshare : endpoints_share l1 l2 = true
      · rw [exclusive_probe, if_pos hshare] at hpr
        cases hpr
      · rw [exclusive_probe, if_neg hshare] at hpr
        exact ⟨by simpa using hshare, by rw [hpr]; rfl⟩
    · rintro ⟨hshare, hsome⟩
      obtain ⟨ir, hir⟩ := Option.isSome_iff_exists.mp hsome
      refine ⟨ir.single, ?_⟩
      rw [mem_outer_scan]
      refine ⟨i, j, l1, l2, ir, hi, hj, hij, ?_, by norm_num⟩
      rw [exclusive_probe, if_neg (by simp [hshare]), hir]
  · constructor
    · rintro ⟨p, hp⟩
      rw [mem_outer_scan] at hp
      obtain ⟨a, b, l1', l2', ir, ha, hb, hab, hpr, heq⟩ := hp
      simp only [Prod.mk.injEq, List.cons.injEq, and_true, Nat.zero_add] at heq
      obtain ⟨-, rfl, rfl⟩ := heq
      rw [hi] at ha
      rw [hj] at hb
      obtain rfl := Option.some.inj ha
      obtain rfl := Option.some.inj hb
      rw [inclusive_probe] at hpr
      rw [hpr]
      rfl
    · intro hsome
      obtain ⟨ir, hir⟩ := Option.isSome_iff_exists.mp hsome
      refine ⟨ir.single, ?_⟩
      rw [mem_outer_scan]
      exact ⟨i, j, l1, l2, ir, hi, hj, hij, by rw [inclusive_probe]; exact hir,
        by norm_num⟩

/-- C8's theorem applied to the crossing pair `(0,0)–(2,2)`, `(0,2)–(2,0)`
at indices `(0, 1)`, whose brute-force output under both policies is the
single record at `(1,1)`. -/
theorem c8_pair_policy_witness :
    ((∃ p, (p, [0, 1]) ∈ ([(⟨fq 1, fq 1⟩, [0, 1])] : List IntersectionRecord)) ↔
      endpoints_share w_cross_a w_cross_b = false
        ∧ (intersect sqrt_id w_cross_a w_cross_b).isSome = true)
    ∧ ((∃ p, (p, [0, 1]) ∈ ([(⟨fq 1, fq 1⟩, [0, 1])] : List IntersectionRecord)) ↔
      (intersect sqrt_id w_cross_a w_cross_b).isSome = true) :=
  c8_pair_policy sqrt_id empty_sweep [w_cross_a, w_cross_b]
    [(⟨fq 1, fq 1⟩, [0, 1])] [(⟨fq 1, fq 1⟩, [0, 1])] 0 1 w_cross_a w_cross_b
    (by norm_num)
    (by norm_num [line_is_finite, w_cross_a, w_cross_b, mkLine, fq])
    (by norm_num [self_intersections, line_is_finite, outer_scan, inner_scan,
      indexFrom, exclusive_probe, endpoints_share, intersect, aabb_reject,
      flt_gt, flt_lt, ulps_eq, ulps_eq_c, cross_z, div, scale_to_coordinate,
      Intersection.single, w_cross_a, w_cross_b, mkLine, fq, flt_zero,
      add_def, sub_def, mul_def, div_def, coord_sub_def])
    (by norm_num [self_intersections_inclusive, line_is_finite, outer_scan,
      inner_scan, indexFrom, inclusive_probe, intersect, aabb_reject,
      flt_gt, flt_lt, ulps_eq, ulps_eq_c, cross_z, div, scale_to_coordinate,
      Intersection.single, w_cross_a, w_cross_b, mkLine, fq, flt_zero,
      add_def, sub_def, mul_def, div_def, coord_sub_def])
    rfl rfl (by norm_num)

/-- C9: below the threshold, on finite input, each brute-force driver's
output is a list of records whose index lists are exactly `[i, j]` with
`i < j` — at least two distinct indices, sorted ascending — and the records
are emitted in pair-enumeration order (`i` ascending, then `j`
ascending). -/
theorem c9_record_shape_and_order (sqrtf : Flt → Flt) (engine : SweepFn)
    (lines : List Line) (out out' : List IntersectionRecord)
    (hlen : lines.length < 25) (hfin : lines.all line_is_finite = true)
    (hex : self_intersections sqrtf engine lines = .ok out)
    (hin : self_intersections_inclusive sqrtf engine lines = .ok out') :
    ((∀ r ∈ out, ∃ i j, i < j ∧ r.2 = [i, j])
      ∧ out.Pairwise record_index_lt)
    ∧ ((∀ r ∈ out', ∃ i j, i < j ∧ r.2 = [i, j])
      ∧ out'.Pairwise record_index_lt) := by
  rw [self_intersections_below sqrtf engine lines hlen hfin] at hex
  rw [self_intersections_inclusive_below sqrtf engine lines hlen hfin] at hin
  obtain rfl := (Except.ok.inj hex).symm
  obtain rfl := (Except.ok.inj hin).symm
  refine ⟨⟨?_, pairwise_outer_scan _ 0 lines⟩, ⟨?_, pairwise_outer_scan _ 0 lines⟩⟩
  · intro r hr
    obtain ⟨i, j, _, hij, hsnd⟩ := outer_scan_snd _ 0 lines r hr
    exact ⟨i, j, hij, hsnd⟩
  · intro r hr
    obtain ⟨i, j, _, hij, hsnd⟩ := outer_scan_snd _ 0 lines r hr
    exact ⟨i, j, hij, hsnd⟩

/-- C9's theorem applied to the crossing pair `(0,0)–(2,2)`, `(0,2)–(2,0)`:
both outputs are the single record at `(1,1)` with indices `[0, 1]`. -/
theorem c9_record_shape_and_order_witness :
    ((∀ r ∈ ([(⟨fq 1, fq 1⟩, [0, 1])] : List IntersectionRecord),
        ∃ i j, i < j ∧ r.2 = [i, j])
      ∧ ([(⟨fq 1, fq 1⟩, [0, 1])] : List IntersectionRecord).Pairwise record_index_lt)
    ∧ ((∀ r ∈ ([(⟨fq 1, fq 1⟩, [0, 1])] : List IntersectionRecord),
        ∃ i j, i < j ∧ r.2 = [i, j])
      ∧ ([(⟨fq 1, fq 1⟩, [0, 1])] : List IntersectionRecord).Pairwise record_index_lt) :=
  c9_record_shape_and_order sqrt_id empty_sweep [w_cross_a, w_cross_b]
    [(⟨fq 1, fq 1⟩, [0, 1])] [(⟨fq 1, fq 1⟩, [0, 1])]
    (by norm_num)
    (by norm_num [line_is_finite, w_cross_a, w_cross_b, mkLine, fq])
    (by norm_num [self_intersections, line_is_finite, outer_scan, inner_scan,
      indexFrom, exclusive_probe, endpoints_share, intersect, aabb_reject,
      flt_gt, flt_lt, ulps_eq, ulps_eq_c, cross_z, div, scale_to_coordinate,
      Intersection.single, w_cross_a, w_cross_b, mkLine, fq, flt_zero,
      add_def, sub_def, mul_def, div_def, coord_sub_def])
    (by norm_num [self_intersections_inclusive, line_is_finite, outer_scan,
      inner_scan, indexFrom, inclusive_probe, intersect, aabb_reject,
      flt_gt, flt_lt, ulps_eq, ulps_eq_c, cross_z, div, scale_to_coordinate,
      Intersection.single, w_cross_a, w_cross_b, mkLine, fq, flt_zero,
      add_def, sub_def, mul_def, div_def, coord_sub_def])

/-! ### The segments of the C1 and C3 inputs truly do not intersect -/

lemma c1_segments_share_no_point (p : ℚ × ℚ)
    (h1 : onSegment c1_seg_a p) (h2 : onSegment c1_seg_b p) : False := by
  obtain ⟨px, py⟩ := p
  obtain ⟨t, ht0, ht1, hx1, hy1⟩ := h1
  obtain ⟨u, hu0, hu1, hx2, hy2⟩ := h2
  norm_num [c1_seg_a, c1_seg_b, mkLine, fq] at hx1 hy1 hx2 hy2
  -- the supporting lines meet only at parameter u = -3/2 on the second
  -- segment, outside [0, 1]
  linarith

lemma c3_segments_share_no_point (p : ℚ × ℚ)
    (h1 : onSegment c3_seg_a p) (h2 : onSegment c3_seg_b p) : False := by
  obtain ⟨px, py⟩ := p
  obtain ⟨t, ht0, ht1, hx1, hy1⟩ := h1
  obtain ⟨u, hu0, hu1, hx2, hy2⟩ := h2
  norm_num [c3_seg_a, c3_seg_b, mkLine, fq] at hx1 hy1 hx2 hy2
  linarith

/-- C1 (code bug): on the two disjoint segments `(0,0)–(2,2)` and
`(3/2,0)–(3,1/2)` — `c1_segments_share_no_point` proves they share no
point — both boolean entry points return `Ok(false)` (the exact `geo`
predicate finds no intersection) while both iterator entry points return a
non-empty sequence holding the record `((-3/4,-3/4), [0,1])`: the unclipped
general-branch candidate of `intersect`, a point outside both segments.  So
`is_self_intersecting` is false while `self_intersections` is non-empty
under the same policy, against the claim. -/
theorem c1_boolean_iterator_divergence :
    is_self_intersecting empty_sweep [c1_seg_a, c1_seg_b] = .ok false
    ∧ self_intersections sqrt_id empty_sweep [c1_seg_a, c1_seg_b]
      = .ok [(⟨fq (-3/4), fq (-3/4)⟩, [0, 1])]
    ∧ is_self_intersecting_inclusive empty_sweep [c1_seg_a, c1_seg_b] = .ok false
    ∧ self_intersections_inclusive sqrt_id empty_sweep [c1_seg_a, c1_seg_b]
      = .ok [(⟨fq (-3/4), fq (-3/4)⟩, [0, 1])] := by
  refine ⟨?_, ?_, ?_, ?_⟩
  · norm_num [is_self_intersecting, line_is_finite, outer_any, inner_any,
      exclusive_pred, endpoints_share, geo_intersects, geo_point_on, orient2d,
      ulps_eq, ulps_eq_c, c1_seg_a, c1_seg_b, mkLine, fq]
  · norm_num [self_intersections, line_is_finite, outer_scan, inner_scan,
      indexFrom, exclusive_probe, endpoints_share, intersect, aabb_reject,
      flt_gt, flt_lt, ulps_eq, ulps_eq_c, cross_z, div, scale_to_coordinate,
      Intersection.single, c1_seg_a, c1_seg_b, mkLine, fq, flt_zero,
      add_def, sub_def, mul_def, div_def, coord_sub_def]
  · norm_num [is_self_intersecting_inclusive, outer_any, inner_any,
      inclusive_pred, geo_intersects, geo_point_on, orient2d,
      c1_seg_a, c1_seg_b, mkLine, fq]
  · norm_num [self_intersections_inclusive, line_is_finite, outer_scan,
      inner_scan, indexFrom, inclusive_probe, intersect, aabb_reject,
      flt_gt, flt_lt, ulps_eq, ulps_eq_c, cross_z, div, scale_to_coordinate,
      Intersection.single, c1_seg_a, c1_seg_b, mkLine, fq, flt_zero,
      add_def, sub_def, mul_def, div_def, coord_sub_def]

/-- C3 (code bug): the two segments `(0,0)–(4,4)` and `(3,0)–(6,1)` share
no point at all (`c3_segments_share_no_point`) — in particular no interior
point — and no pair of their endpoints is ULP-equal, yet `self_intersections`
under the exclusive policy returns a non-empty sequence: the record
`((-3/2,-3/2), [0,1])`, the unclipped general-branch candidate that lies
outside both segments (the source computes the second parameter `u` and
never range-checks it). -/
theorem c3_phantom_intersection_record :
    self_intersections sqrt_id empty_sweep [c3_seg_a, c3_seg_b]
      = .ok [(⟨fq (-3/2), fq (-3/2)⟩, [0, 1])] := by
  norm_num [self_intersections, line_is_finite, outer_scan, inner_scan,
    indexFrom, exclusive_probe, endpoints_share, intersect, aabb_reject,
    flt_gt, flt_lt, ulps_eq, ulps_eq_c, cross_z, div, scale_to_coordinate,
    Intersection.single, c3_seg_a, c3_seg_b, mkLine, fq, flt_zero,
    add_def, sub_def, mul_def, div_def, coord_sub_def]

end Intersect2d
